import Mathlib

/-!
Verification development for the wtw-transcoder service.

This file is a shallow embedding of the parts of the source relevant to the
frozen claims:

* `src/src/workers/transcoding.js` — resolution table, checkpoint state
  manager (`JobStateManager`), resolution filtering, master playlist
  generation, thumbnail stage, cleanup reaper;
* `src/src/services/database.js` — job record update statements;
* `src/src/services/queue.js` — second `cleanupOldJobs` variant;
* `src/src/routes/dashboard.js` — `POST /transcode` submission handler and
  `DELETE /job/:jobId` cancel handler.

JavaScript strings stay `String`, JS arrays become `List`, nullable values
become `Option`, millisecond timestamps become `Int` (JS numbers under
subtraction and comparison), and thrown exceptions become `Except` or an
explicit error constructor.  Side-effecting handlers are embedded as pure
functions from their inputs (request body, current job record, queue
contents, oracle results for external services) to their outputs (HTTP
response, new record, new queue contents).
-/

namespace WtwTranscoder

/-! ## Resolution profiles (`RESOLUTION_CONFIGS`, transcoding.js lines 27-73)

The worker only ever looks resolutions up after the submission route has
validated them against the closed set `{1080p,720p,480p,360p,240p}`
(dashboard.js lines 210-219), so the table is embedded as a total function
on an enumeration of that closed set; the `if (!config) return false`
branch of `filterValidResolutions` is unreachable for these inputs. -/

inductive Resolution where
  | r1080p
  | r720p
  | r480p
  | r360p
  | r240p
deriving DecidableEq, Repr

/-- The string key of a resolution, as it appears in the JS config table. -/
def Resolution.name : Resolution → String
  | .r1080p => "1080p"
  | .r720p => "720p"
  | .r480p => "480p"
  | .r360p => "360p"
  | .r240p => "240p"

structure ResolutionConfig where
  width : Nat
  height : Nat
  /-- e.g. `"6593k"`; the source stores bitrates as strings and applies
  `parseInt` where a number is needed. -/
  bitrate : String
  audioBitrate : String
  profile : String
  level : String
  codecs : String
deriving DecidableEq, Repr

def RESOLUTION_CONFIGS : Resolution → ResolutionConfig
  | .r1080p =>
    { width := 1920, height := 1080, bitrate := "6593k",
      audioBitrate := "192k", profile := "high", level := "4.0",
      codecs := "avc1.640028,mp4a.40.5" }
  | .r720p =>
    { width := 1280, height := 720, bitrate := "2766k",
      audioBitrate := "128k", profile := "high", level := "4.0",
      codecs := "avc1.640028,mp4a.40.5" }
  | .r480p =>
    { width := 854, height := 480, bitrate := "1395k",
      audioBitrate := "128k", profile := "main", level := "3.1",
      codecs := "avc1.42001f,mp4a.40.5" }
  | .r360p =>
    { width := 640, height := 360, bitrate := "1038k",
      audioBitrate := "96k", profile := "main", level := "3.1",
      codecs := "avc1.4d001f,mp4a.40.5" }
  | .r240p =>
    { width := 426, height := 240, bitrate := "400k",
      audioBitrate := "64k", profile := "baseline", level := "3.0",
      codecs := "avc1.42001e,mp4a.40.5" }

/-- JavaScript `parseInt` on the bitrate strings of the table: the value of
the leading decimal-digit run (`"6593k"` parses to `6593`). -/
def parseIntPrefix (s : String) : Nat :=
  (s.data.takeWhile Char.isDigit).foldl (fun n c => n * 10 + (c.toNat - 48)) 0

/-- Result of `ffprobe` (`getVideoInfo`, transcoding.js lines 997-1029).
Only the fields the claims touch are carried. -/
structure VideoInfo where
  duration : Nat
  width : Nat
  height : Nat
deriving DecidableEq, Repr

/-! ## `filterValidResolutions` (transcoding.js lines 1031-1045) -/

def filterValidResolutions (requestedResolutions : List Resolution)
    (videoInfo : VideoInfo) : List Resolution :=
  requestedResolutions.filter fun resolution =>
    let config := RESOLUTION_CONFIGS resolution
    -- source: do not upscale - only include resolutions whose configured
    -- height does not exceed the source height
    -- (`if (config.height > videoInfo.height) return false; return true`)
    if videoInfo.height < config.height then false else true

/-- `TranscodingError` (transcoding.js lines 75-82): message plus stage tag. -/
structure TranscodingError where
  message : String
  stage : String
deriving DecidableEq, Repr

/-- The validation step of the `analyzed` stage (transcoding.js lines
322-355): compute the valid resolutions and throw a `TranscodingError`
tagged `"validation"` when none remain. -/
def analyzeValidation (requestedResolutions : List Resolution)
    (videoInfo : VideoInfo) : Except TranscodingError (List Resolution) :=
  let validResolutions := filterValidResolutions requestedResolutions videoInfo
  if validResolutions.length = 0 then
    .error { message := "No valid resolutions for transcoding",
             stage := "validation" }
  else
    .ok validResolutions

end WtwTranscoder

namespace WtwTranscoder

/-- C1: `filterValidResolutions` returns exactly the requested resolutions
whose configured height is at most the source height, as a sublist of the
request (hence subset and order preserved, no upscale), and an empty result
makes the analysis stage fail with a `TranscodingError` tagged stage
`"validation"`. -/
theorem c1_filterValidResolutions_spec (requested : List Resolution)
    (videoInfo : VideoInfo) :
    List.Sublist (filterValidResolutions requested videoInfo) requested
    ∧ (∀ r, r ∈ filterValidResolutions requested videoInfo ↔
        r ∈ requested ∧ (RESOLUTION_CONFIGS r).height ≤ videoInfo.height)
    ∧ (filterValidResolutions requested videoInfo = [] →
        analyzeValidation requested videoInfo =
          .error { message := "No valid resolutions for transcoding",
                   stage := "validation" }) := by
  refine ⟨List.filter_sublist _, fun r => ?_, fun hempty => ?_⟩
  · simp only [filterValidResolutions, List.mem_filter]
    constructor
    · rintro ⟨hmem, hcond⟩
      refine ⟨hmem, ?_⟩
      by_contra hgt
      push_neg at hgt
      simp [if_pos hgt] at hcond
    · rintro ⟨hmem, hle⟩
      refine ⟨hmem, ?_⟩
      have : ¬ videoInfo.height < (RESOLUTION_CONFIGS r).height :=
        not_lt_of_le hle
      simp [this]
  · simp [analyzeValidation, hempty]

/-- Witness for C1: scenario S2 of the spec — a 640x360 source with
requested `["1080p","240p"]` keeps 240p and drops 1080p, applied through
`c1_filterValidResolutions_spec`. -/
theorem c1_filterValidResolutions_spec_witness :
    Resolution.r240p ∈
      filterValidResolutions [.r1080p, .r240p] { duration := 10, width := 640, height := 360 }
    ∧ Resolution.r1080p ∉
      filterValidResolutions [.r1080p, .r240p] { duration := 10, width := 640, height := 360 } := by
  have h := c1_filterValidResolutions_spec [.r1080p, .r240p]
    { duration := 10, width := 640, height := 360 }
  constructor
  · exact (h.2.1 Resolution.r240p).mpr ⟨by decide, by decide⟩
  · intro hmem
    have := (h.2.1 Resolution.r1080p).mp hmem
    exact absurd this.2 (by decide)

/-! ## `createMasterPlaylist` (transcoding.js lines 1154-1174)

The function writes `masterPlaylist.join("\n")` to disk; the embedding
returns the list of lines.  `Array.prototype.sort` is stable and the
comparator `(a, b) => bConfig.height - aConfig.height` orders by
descending configured height, which a stable merge sort with the relation
"height of the left argument is at least the height of the right argument"
reproduces exactly. -/

structure TranscodedFile where
  resolution : Resolution
  playlistPath : String
  segmentsDir : String
deriving DecidableEq, Repr

def masterSortLe (a b : TranscodedFile) : Bool :=
  (RESOLUTION_CONFIGS b.resolution).height ≤ (RESOLUTION_CONFIGS a.resolution).height

def sortMasterFiles (transcodedFiles : List TranscodedFile) : List TranscodedFile :=
  transcodedFiles.mergeSort masterSortLe

def streamInfLine (resolution : Resolution) : String :=
  let config := RESOLUTION_CONFIGS resolution
  let bandwidth := parseIntPrefix config.bitrate * 1000
  "#EXT-X-STREAM-INF:PROGRAM-ID=1,BANDWIDTH=" ++ toString bandwidth ++
    ",RESOLUTION=" ++ toString config.width ++ "x" ++ toString config.height ++
    ",CODECS=\"" ++ config.codecs ++ "\""

def renditionUriLine (resolution : Resolution) : String :=
  "hls_" ++ resolution.name ++ "/index-.m3u8"

def createMasterPlaylist (transcodedFiles : List TranscodedFile) : List String :=
  "#EXTM3U" ::
    (sortMasterFiles transcodedFiles).flatMap fun f =>
      [streamInfLine f.resolution, renditionUriLine f.resolution]

/-- Distinct resolutions have distinct configured heights. -/
theorem resolution_height_injective (a b : Resolution)
    (h : (RESOLUTION_CONFIGS a).height = (RESOLUTION_CONFIGS b).height) :
    a = b := by
  cases a <;> cases b <;> first | rfl | (exact absurd h (by decide))

/-- C2: for a non-empty list of transcoded renditions (distinct
resolutions), the master playlist starts with `#EXTM3U` and then, per
rendition in strictly descending configured height order, exactly the
stream-inf line (PROGRAM-ID 1, bandwidth = video kbps × 1000, WxH and
codecs from the profile table) followed by the relative rendition URI;
every rendition appears (the sorted list is a permutation of the input). -/
theorem c2_createMasterPlaylist_spec (files : List TranscodedFile)
    (hne : files ≠ [])
    (hnodup : (files.map TranscodedFile.resolution).Nodup) :
    createMasterPlaylist files =
      "#EXTM3U" ::
        ((sortMasterFiles files).flatMap fun f =>
          [streamInfLine f.resolution, renditionUriLine f.resolution])
    ∧ (sortMasterFiles files).Perm files
    ∧ sortMasterFiles files ≠ []
    ∧ List.Chain'
        (fun a b => (RESOLUTION_CONFIGS b.resolution).height <
          (RESOLUTION_CONFIGS a.resolution).height)
        (sortMasterFiles files)
    ∧ streamInfLine .r1080p
        = "#EXT-X-STREAM-INF:PROGRAM-ID=1,BANDWIDTH=6593000,RESOLUTION=1920x1080,CODECS=\"avc1.640028,mp4a.40.5\""
    ∧ streamInfLine .r720p
        = "#EXT-X-STREAM-INF:PROGRAM-ID=1,BANDWIDTH=2766000,RESOLUTION=1280x720,CODECS=\"avc1.640028,mp4a.40.5\""
    ∧ streamInfLine .r480p
        = "#EXT-X-STREAM-INF:PROGRAM-ID=1,BANDWIDTH=1395000,RESOLUTION=854x480,CODECS=\"avc1.42001f,mp4a.40.5\""
    ∧ streamInfLine .r360p
        = "#EXT-X-STREAM-INF:PROGRAM-ID=1,BANDWIDTH=1038000,RESOLUTION=640x360,CODECS=\"avc1.4d001f,mp4a.40.5\""
    ∧ streamInfLine .r240p
        = "#EXT-X-STREAM-INF:PROGRAM-ID=1,BANDWIDTH=400000,RESOLUTION=426x240,CODECS=\"avc1.42001e,mp4a.40.5\""
    ∧ (∀ r : Resolution, renditionUriLine r = "hls_" ++ r.name ++ "/index-.m3u8") := by
  have hperm : (sortMasterFiles files).Perm files :=
    List.mergeSort_perm files masterSortLe
  have hsorted : (sortMasterFiles files).Pairwise (fun a b => masterSortLe a b) := by
    have := @List.sorted_mergeSort TranscodedFile masterSortLe
      (fun a b c hab hbc => by
        simp only [masterSortLe, decide_eq_true_eq] at *
        exact le_trans hbc hab)
      (fun a b => by
        simp only [masterSortLe, Bool.or_eq_true, decide_eq_true_eq]
        exact le_total _ _)
      files
    simpa using this
  have hnodup' : ((sortMasterFiles files).map TranscodedFile.resolution).Nodup :=
    (hperm.map TranscodedFile.resolution).nodup_iff.mpr hnodup
  have hne' : sortMasterFiles files ≠ [] := by
    intro h
    rw [h] at hperm
    exact hne hperm.symm.eq_nil
  refine ⟨rfl, hperm, hne', ?_, by decide, by decide, by decide, by decide,
    by decide, fun r => rfl⟩
  have hpne : (sortMasterFiles files).Pairwise
      (fun a b => a.resolution ≠ b.resolution) := by
    rw [List.Nodup, List.pairwise_map] at hnodup'
    exact hnodup'
  exact (hsorted.and hpne).imp (fun h => by
    obtain ⟨hle, hner⟩ := h
    simp only [masterSortLe, decide_eq_true_eq] at hle
    exact lt_of_le_of_ne hle fun heq =>
      hner (resolution_height_injective _ _ heq.symm)) |>.chain'

/-- Witness for C2: the theorem applied to the two renditions of a 720p
job (scenario S1 truncated), with both hypotheses discharged. -/
theorem c2_createMasterPlaylist_spec_witness :
    (sortMasterFiles
        [{ resolution := .r360p, playlistPath := "", segmentsDir := "" },
         { resolution := .r720p, playlistPath := "", segmentsDir := "" }]).Perm
      [{ resolution := .r360p, playlistPath := "", segmentsDir := "" },
       { resolution := .r720p, playlistPath := "", segmentsDir := "" }]
    ∧ List.Chain'
        (fun a b => (RESOLUTION_CONFIGS b.resolution).height <
          (RESOLUTION_CONFIGS a.resolution).height)
        (sortMasterFiles
          [{ resolution := .r360p, playlistPath := "", segmentsDir := "" },
           { resolution := .r720p, playlistPath := "", segmentsDir := "" }]) := by
  have h := c2_createMasterPlaylist_spec
    [{ resolution := .r360p, playlistPath := "", segmentsDir := "" },
     { resolution := .r720p, playlistPath := "", segmentsDir := "" }]
    (by decide) (by decide)
  exact ⟨h.2.1, h.2.2.2.1⟩

/-! ## Job store (`database.js`)

`jobQueries.updateStatus` (lines 101-109) and `jobQueries.setError` (lines
117-121) are single UPDATE statements; `CURRENT_TIMESTAMP` becomes the
explicit argument `now`.  Only the columns those statements touch, plus
the identifying and claim-relevant columns, are carried. -/

structure Job where
  job_id : String
  original_key : String
  output_key : Option String
  status : String
  progress : Int
  error_message : Option String
  started_at : Option Int
  completed_at : Option Int
deriving DecidableEq, Repr

/-- `jobQueries.updateStatus` (database.js lines 101-109): set the
requested status unconditionally; set `started_at` when the new status is
`processing` and `completed_at` when it is `completed` or `failed`,
otherwise keep the previous values.  There is no WHERE clause on the
current status and no transition check. -/
def updateStatus (job : Job) (status : String) (now : Int) : Job :=
  { job with
    status := status,
    started_at := if status = "processing" then some now else job.started_at,
    completed_at :=
      if status = "completed" ∨ status = "failed" then some now
      else job.completed_at }

/-- `JobManager.updateJobStatus` (database.js lines 285-296): runs the
statement for whatever status the caller passes and appends an info log;
no validation of the transition happens on this path either. -/
def updateJobStatus (job : Job) (status : String) (now : Int) :
    Job × String :=
  (updateStatus job status now, "Status changed to " ++ status)

/-- Follows the spec's words (§3/§4.3): the legal status transitions are
queued→processing, processing→completed, processing→failed, failed→queued
(retry) and queued→failed (cancel).  The code has no counterpart of this
predicate; it exists only to compare the code against the claimed policy. -/
def specLegalTransition (fromStatus toStatus : String) : Bool :=
  [("queued", "processing"), ("processing", "completed"),
   ("processing", "failed"), ("failed", "queued"),
   ("queued", "failed")].contains (fromStatus, toStatus)

/-- Counterexample for C3: the transition completed→processing is not in
the claimed legal set, yet `updateStatus` applies it (the record leaves
the completed state) instead of rejecting it with an error. -/
theorem c3_counterexample_illegal_transition_applied :
    specLegalTransition "completed" "processing" = false
    ∧ (updateStatus
        { job_id := "j1", original_key := "k.mp4", output_key := some "k/index.m3u8",
          status := "completed", progress := 100, error_message := none,
          started_at := some 0, completed_at := some 1 }
        "processing" 2).status = "processing" := by
  constructor
  · decide
  · rfl

/-- C3 amended: the job store performs no server-side transition check;
even for a pair outside the claimed legal set, `updateStatus` applies the
requested status (and stamps `started_at`/`completed_at` from it) rather
than failing. -/
theorem c3_updateStatus_applies_unconditionally (job : Job) (status : String)
    (now : Int) (hillegal : specLegalTransition job.status status = false) :
    (updateStatus job status now).status = status
    ∧ (updateStatus job status now).started_at =
        (if status = "processing" then some now else job.started_at)
    ∧ (updateStatus job status now).completed_at =
        (if status = "completed" ∨ status = "failed" then some now
         else job.completed_at)
    ∧ (updateJobStatus job status now).1 = updateStatus job status now :=
  ⟨rfl, rfl, rfl, rfl⟩

/-- Witness for C3 amended: completed→processing applied concretely. -/
theorem c3_updateStatus_applies_unconditionally_witness :
    ((updateStatus
        { job_id := "j1", original_key := "k.mp4", output_key := some "k/index.m3u8",
          status := "completed", progress := 100, error_message := none,
          started_at := some 0, completed_at := some 1 }
        "processing" 2).status = "processing")
    ∧ ((updateStatus
        { job_id := "j1", original_key := "k.mp4", output_key := some "k/index.m3u8",
          status := "completed", progress := 100, error_message := none,
          started_at := some 0, completed_at := some 1 }
        "processing" 2).started_at = some 2) := by
  have h := c3_updateStatus_applies_unconditionally
    { job_id := "j1", original_key := "k.mp4", output_key := some "k/index.m3u8",
      status := "completed", progress := 100, error_message := none,
      started_at := some 0, completed_at := some 1 }
    "processing" 2 (by decide)
  exact ⟨h.1, h.2.1.trans (by decide)⟩

/-! ## Submission route (`POST /`, dashboard.js lines 175-293)

The handler is embedded as a pure function from the request body and two
oracles to the HTTP response:

* `parseUrlProtocol` stands for the Node `new URL` constructor, returning
  the protocol string (such as `"https:"`) on success and `none` when the
  constructor throws;
* `b2GetFileInfo` stands for the awaited `b2Service.getFileInfo` call:
  `.error` when the call throws (the handler logs a warning and
  continues), `.ok none` for a missing file (404), `.ok (some ())` for a
  hit.

JavaScript falsiness of the body fields is modelled explicitly: an absent
field is `none`, and the empty string is falsy where the source tests the
value with `!` or `||`.  The fresh `uuidv4()` job id and the enqueue side
effects are outside the response shape the claims speak about and are not
carried. -/

def listContainsSeq (pat : List Char) : List Char → Bool
  | [] => pat.isEmpty
  | c :: rest => pat.isPrefixOf (c :: rest) || listContainsSeq pat rest

/-- JavaScript `String.prototype.includes`. -/
def jsIncludes (s pat : String) : Bool :=
  listContainsSeq pat.data s.data

def splitOnChar (sep : Char) : List Char → List (List Char)
  | [] => [[]]
  | c :: rest =>
    let r := splitOnChar sep rest
    if c == sep then [] :: r
    else (c :: r.headD []) :: r.tail

def joinWithChar (sep : Char) : List (List Char) → List Char
  | [] => []
  | [g] => g
  | g :: gs => g ++ sep :: joinWithChar sep gs

/-- Node `path.basename(key, path.extname(key))`: the last `/`-separated
component with its final extension removed (a lone leading dot is not an
extension). -/
def jsBasenameNoExt (p : String) : String :=
  let base := (splitOnChar '/' p.data).getLastD p.data
  let parts := splitOnChar '.' base
  match parts with
  | [] => ⟨base⟩
  | [_] => ⟨base⟩
  | q :: rest =>
    if q.isEmpty && rest.length == 1 then ⟨base⟩
    else ⟨joinWithChar '.' parts.dropLast⟩

/-- The closed resolution set of the route (dashboard.js line 210). -/
def VALID_RESOLUTIONS : List String := ["1080p", "720p", "480p", "360p", "240p"]

/-- The `^[a-zA-Z0-9_-]+$` test (dashboard.js lines 223-224). -/
def testVideoNameRegex (s : String) : Bool :=
  !s.isEmpty && s.data.all fun c => c.isAlphanum || c == '_' || c == '-'

inductive SubmitResponse where
  /-- HTTP 400 with the given error text. -/
  | badRequest (error : String)
  /-- HTTP 404 (source object missing from the original-video bucket). -/
  | notFound (error : String)
  /-- HTTP 500 produced by the outer catch of the handler. -/
  | serverError (error : String)
  /-- HTTP 201 success body (fields the claims speak about). -/
  | created (environment : String) (videoName : String)
      (resolutions : List String) (callbackUrl : Option String)
deriving DecidableEq, Repr

structure SubmitRequest where
  key : Option String
  resolutions : Option (List String)
  priority : Option Int
  videoName : Option String
  callback_url : Option String
deriving DecidableEq, Repr

def postTranscode (parseUrlProtocol : String → Option String)
    (b2GetFileInfo : Except String (Option Unit))
    (req : SubmitRequest) : SubmitResponse :=
  match req.key with
  | none => .badRequest "Missing required parameter: key"
  | some key =>
    if key == "" then .badRequest "Missing required parameter: key"
    else
      match req.callback_url with
      | none =>
        -- dashboard.js line 183 evaluates `callback_url.includes("stage")`
        -- before the `if (callback_url)` guard on line 187; with the field
        -- absent this dereferences undefined, and the thrown TypeError is
        -- caught by the outer catch (lines 286-292), which answers 500.
        .serverError "Failed to create transcoding job"
      | some callback_url =>
        let environment :=
          if jsIncludes callback_url "stage" then "staging" else "production"
        let urlCheck : Option SubmitResponse :=
          if callback_url == "" then none  -- `if (callback_url)`: "" is falsy
          else
            match parseUrlProtocol callback_url with
            | none => some (.badRequest "Invalid callback URL format")
            | some protocol =>
              if protocol == "http:" || protocol == "https:" then none
              else some (.badRequest "Callback URL must use HTTP or HTTPS protocol")
        match urlCheck with
        | some resp => resp
        | none =>
          let targetResolutions := req.resolutions.getD VALID_RESOLUTIONS
          let invalidResolutions :=
            targetResolutions.filter fun r => !(VALID_RESOLUTIONS.contains r)
          if invalidResolutions.length > 0 then
            .badRequest ("Invalid resolutions: "
              ++ String.intercalate ", " invalidResolutions
              ++ ". Valid options: " ++ String.intercalate ", " VALID_RESOLUTIONS)
          else
            let outputVideoName :=
              match req.videoName with
              | some v => if v == "" then jsBasenameNoExt key else v
              | none => jsBasenameNoExt key
            if !(testVideoNameRegex outputVideoName) then
              .badRequest "videoName must contain only alphanumeric characters, hyphens, and underscores"
            else
              match b2GetFileInfo with
              | .ok none =>
                .notFound ("File not found in Original Video bucket: " ++ key)
              | _ =>
                .created environment outputVideoName targetResolutions
                  (some callback_url)

/-- C4 (code bug): a submission with a valid key and no `callback_url`
does not succeed with environment `"production"` — the handler crashes on
`callback_url.includes("stage")` and answers 500 — while the same
submission with a callback URL succeeds, deriving `"production"` without
the substring `"stage"` and `"staging"` with it. -/
theorem c4_missing_callback_url_yields_500 :
    postTranscode (fun _ => some "https:") (.error "b2 check failed")
      { key := some "uploads/a.mp4", resolutions := none, priority := none,
        videoName := none, callback_url := none }
      = .serverError "Failed to create transcoding job"
    ∧ postTranscode (fun _ => some "https:") (.error "b2 check failed")
      { key := some "uploads/a.mp4", resolutions := none, priority := none,
        videoName := none, callback_url := some "https://example.com/cb" }
      = .created "production" "a" VALID_RESOLUTIONS (some "https://example.com/cb")
    ∧ postTranscode (fun _ => some "https:") (.error "b2 check failed")
      { key := some "uploads/a.mp4", resolutions := none, priority := none,
        videoName := none, callback_url := some "https://stage.x/cb" }
      = .created "staging" "a" VALID_RESOLUTIONS (some "https://stage.x/cb") := by
  refine ⟨rfl, ?_, ?_⟩ <;> decide

/-! ## Cancel route (`DELETE /job/:jobId`, dashboard.js lines 380-411)

The handler is embedded as a pure function from the looked-up job record
and the queue contents to the response, the stored record and the new
queue contents.  Bull queue entries carry their payload job id and their
state; `queue.getJobs(["waiting", "delayed"])` followed by
`find(j => j.data.jobId === jobId)` and `remove()` deletes the first
waiting-or-delayed entry whose payload matches. -/

/-- `jobQueries.setError` (database.js lines 117-121): set status
`failed`, the error message, and `completed_at`, unconditionally. -/
def setJobError (job : Job) (errorMessage : String) (now : Int) : Job :=
  { job with
    status := "failed",
    error_message := some errorMessage,
    completed_at := some now }

structure QueueEntry where
  jobId : String
  state : String
deriving DecidableEq, Repr

def removeWaitingOrDelayed (queue : List QueueEntry) (jobId : String) :
    List QueueEntry :=
  match queue with
  | [] => []
  | e :: rest =>
    if (e.state == "waiting" || e.state == "delayed") && e.jobId == jobId then
      rest
    else
      e :: removeWaitingOrDelayed rest jobId

inductive CancelResponse where
  /-- HTTP 404 "Job not found". -/
  | notFound
  /-- HTTP 200 `success: true, message: "Job cancelled successfully"`. -/
  | ok
deriving DecidableEq, Repr

structure CancelResult where
  response : CancelResponse
  job : Option Job
  queue : List QueueEntry
deriving DecidableEq, Repr

def deleteJobRoute (job : Option Job) (queue : List QueueEntry)
    (jobId : String) (now : Int) : CancelResult :=
  match job with
  | none => { response := .notFound, job := none, queue := queue }
  | some j =>
    -- the queue removal block runs only for status "queued" ...
    let queueAfter :=
      if j.status == "queued" then removeWaitingOrDelayed queue jobId
      else queue
    -- ... but `setJobError` runs for every found job, whatever its status
    { response := .ok,
      job := some (setJobError j "Job cancelled by user" now),
      queue := queueAfter }

/-- Counterexample for C5: a processing job is not rejected — the handler
answers success and overwrites the record to failed (so the record does
not stay unchanged), with message "Job cancelled by user" rather than
"cancelled by user". -/
theorem c5_counterexample_processing_job_cancelled :
    (deleteJobRoute
        (some { job_id := "j1", original_key := "k.mp4", output_key := none,
                status := "processing", progress := 40, error_message := none,
                started_at := some 0, completed_at := none })
        [] "j1" 7).response = .ok
    ∧ (deleteJobRoute
        (some { job_id := "j1", original_key := "k.mp4", output_key := none,
                status := "processing", progress := 40, error_message := none,
                started_at := some 0, completed_at := none })
        [] "j1" 7).job
      = some { job_id := "j1", original_key := "k.mp4", output_key := none,
               status := "failed", progress := 40,
               error_message := some "Job cancelled by user",
               started_at := some 0, completed_at := some 7 } := by
  exact ⟨rfl, rfl⟩

/-- C5 amended: `DELETE /job/:jobId` marks every existing job failed with
error message "Job cancelled by user" and answers success regardless of
status; only the queue-entry removal is restricted to queued jobs, and
only a missing job is rejected (404, nothing changed). -/
theorem c5_deleteJobRoute_spec (j : Job) (queue : List QueueEntry)
    (jobId : String) (now : Int) :
    (deleteJobRoute (some j) queue jobId now).response = .ok
    ∧ (deleteJobRoute (some j) queue jobId now).job
        = some (setJobError j "Job cancelled by user" now)
    ∧ (setJobError j "Job cancelled by user" now).status = "failed"
    ∧ (setJobError j "Job cancelled by user" now).error_message
        = some "Job cancelled by user"
    ∧ (deleteJobRoute (some j) queue jobId now).queue
        = (if j.status == "queued" then removeWaitingOrDelayed queue jobId
           else queue)
    ∧ (deleteJobRoute none queue jobId now)
        = { response := .notFound, job := none, queue := queue } :=
  ⟨rfl, rfl, rfl, rfl, rfl, rfl⟩

/-! ## Checkpoint state manager (`JobStateManager`, transcoding.js lines 84-164)

The checkpoint JSON record.  Stages are the strings of `JOB_STAGES`
(lines 16-25); `isStageCompleted` compares positions in
`Object.values(JOB_STAGES)`, where `"failed"` is the last element.  The
`createdAt`/`updatedAt` bookkeeping that `saveState` refreshes is not
observable through any of the operations the claims speak about and is
not carried in the record (the reaper reads `updatedAt` from its own view
of the file, below). -/

def JOB_STAGES_values : List String :=
  ["initialized", "downloaded", "analyzed", "thumbnails_generated",
   "transcoded", "uploaded", "completed", "failed"]

structure UploadedFile where
  fileName : String
  fileKey : String
  uploadedAt : String
deriving DecidableEq, Repr

structure JobState where
  jobId : String
  stage : String
  completedResolutions : List String
  uploadedFiles : List UploadedFile
  videoInfo : Option VideoInfo
  validResolutions : List String
  outputVideoName : Option String
  thumbnailPaths : List String
deriving DecidableEq, Repr

/-- The default state object built by `loadState` (lines 101-112). -/
def defaultJobState (jobId : String) : JobState :=
  { jobId := jobId,
    stage := "initialized",
    completedResolutions := [],
    uploadedFiles := [],
    videoInfo := none,
    validResolutions := [],
    outputVideoName := none,
    thumbnailPaths := [] }

/-- The possible outcomes of reading the checkpoint file in `loadState`:
the file may be absent (`existsSync` false), `readFileSync` may throw,
`JSON.parse` may throw, or parsing succeeds with a state record. -/
inductive CheckpointRead where
  | absent
  | unreadable
  | invalidJson
  | parsed (state : JobState)
deriving DecidableEq, Repr

/-- `JobStateManager.loadState` (transcoding.js lines 91-113): return the
parsed state when the read succeeds; on a missing file, a read error, or
a parse error (both caught by the try/catch, which only warns) fall back
to the fresh default state. -/
def loadState (jobId : String) : CheckpointRead → JobState
  | .parsed state => state
  | _ => defaultJobState jobId

/-- JavaScript `Array.prototype.indexOf`: index of the first occurrence,
`-1` when absent. -/
def jsIndexOf (l : List String) (s : String) : Int :=
  match l.findIdx? (· == s) with
  | some i => (i : Int)
  | none => -1

/-- `JobStateManager.isStageCompleted` (transcoding.js lines 134-139):
`currentIndex > targetIndex` over `Object.values(JOB_STAGES)`. -/
def isStageCompleted (currentStage targetStage : String) : Bool :=
  let stages := JOB_STAGES_values
  let currentIndex := jsIndexOf stages currentStage
  let targetIndex := jsIndexOf stages targetStage
  decide (targetIndex < currentIndex)

/-- `JobStateManager.addCompletedResolution` (transcoding.js lines
141-146): append unless already present (idempotent by value). -/
def addCompletedResolution (state : JobState) (resolution : String) :
    JobState :=
  if state.completedResolutions.contains resolution then state
  else { state with
         completedResolutions := state.completedResolutions ++ [resolution] }

/-- `JobStateManager.addUploadedFile` (transcoding.js lines 148-155):
push `(fileName, fileKey, uploadedAt)` unconditionally — there is no
duplicate check in this method. -/
def addUploadedFile (state : JobState) (fileName fileKey uploadedAt : String) :
    JobState :=
  { state with
    uploadedFiles := state.uploadedFiles
      ++ [{ fileName := fileName, fileKey := fileKey, uploadedAt := uploadedAt }] }

/-- `JobStateManager.isFileUploaded` (transcoding.js lines 161-163). -/
def isFileUploaded (state : JobState) (fileKey : String) : Bool :=
  state.uploadedFiles.any fun file => file.fileKey == fileKey

/-- The guarded upload pattern used at every call site of
`addUploadedFile` (transcoding.js lines 598, 628-631, 659-662, 694-697
together with `uploadFileWithTracking`, line 924): upload and record only
when `isFileUploaded` is still false for the key. -/
def recordUploadIfNew (state : JobState) (fileName fileKey uploadedAt : String) :
    JobState :=
  if isFileUploaded state fileKey then state
  else addUploadedFile state fileName fileKey uploadedAt

/-- Counterexample for C6: `addUploadedFile` itself is not idempotent by
key — recording the same key twice yields a different (longer)
`uploadedFiles` list than recording it once. -/
theorem c6_counterexample_addUploadedFile_duplicates :
    addUploadedFile
        (addUploadedFile (defaultJobState "j1") "index.m3u8" "a/index.m3u8" "t1")
        "index.m3u8" "a/index.m3u8" "t2"
      ≠ addUploadedFile (defaultJobState "j1") "index.m3u8" "a/index.m3u8" "t1" := by
  decide

/-- C6 amended: recording an uploaded key is idempotent only through the
guard the call sites apply — skip when `isFileUploaded` already holds;
the guarded operation applied twice equals it applied once, for every
state and key. -/
theorem c6_recordUploadIfNew_idempotent (state : JobState)
    (fileName fileKey t1 t2 : String) :
    recordUploadIfNew (recordUploadIfNew state fileName fileKey t1)
        fileName fileKey t2
      = recordUploadIfNew state fileName fileKey t1 := by
  by_cases h : isFileUploaded state fileKey
  · simp [recordUploadIfNew, h]
  · have hafter :
        isFileUploaded (addUploadedFile state fileName fileKey t1) fileKey
          = true := by
      simp [isFileUploaded, addUploadedFile, List.any_append]
    simp [recordUploadIfNew, h, hafter]

/-- The seven-stage chain of the spec, without the sibling terminal stage
`failed`. -/
def SPEC_STAGE_CHAIN : List String :=
  ["initialized", "downloaded", "analyzed", "thumbnails_generated",
   "transcoded", "uploaded", "completed"]

/-- Follows the spec's words (§3): `recorded` is strictly past `s` in the
strict total order initialized < downloaded < analyzed <
thumbnails_generated < transcoded < uploaded < completed, with `failed`
outside that chain.  Exists only to compare the code against the claimed
ordering. -/
def strictlyPastInChain (s recorded : String) : Bool :=
  match SPEC_STAGE_CHAIN.findIdx? (· == s),
      SPEC_STAGE_CHAIN.findIdx? (· == recorded) with
  | some i, some j => decide (i < j)
  | _, _ => false

/-- Counterexample for C7: with the recorded stage `failed` — which the
claim places outside the chain — `isStageCompleted` nevertheless reports
`completed` (and every other stage) as completed, because `failed` is the
last element of `Object.values(JOB_STAGES)`. -/
theorem c7_counterexample_failed_past_completed :
    isStageCompleted "failed" "completed" = true
    ∧ strictlyPastInChain "completed" "failed" = false := by
  decide

/-- C7 amended: restricted to recorded stages inside the seven-stage
chain, `isStageCompleted` agrees exactly with "the recorded stage is
strictly past the queried stage in the chain" for every queried stage of
the code's stage set; a recorded stage of `failed`, however, compares as
index 7 and so reports every chain stage as completed. -/
theorem c7_isStageCompleted_chain_spec (recorded s : String)
    (hrec : recorded ∈ SPEC_STAGE_CHAIN) (hs : s ∈ JOB_STAGES_values) :
    isStageCompleted recorded s = strictlyPastInChain s recorded := by
  fin_cases hrec <;> fin_cases hs <;> decide

/-- Witness for C7 amended: recorded `uploaded`, queried `analyzed`. -/
theorem c7_isStageCompleted_chain_spec_witness :
    isStageCompleted "uploaded" "analyzed"
      = strictlyPastInChain "analyzed" "uploaded"
    ∧ isStageCompleted "uploaded" "analyzed" = true :=
  ⟨c7_isStageCompleted_chain_spec "uploaded" "analyzed" (by decide) (by decide),
   by decide⟩

/-! ## Thumbnail stage of the worker (transcoding.js lines 380-428) -/

/-- The thumbnail stage of `transcodingWorker`, embedded as a total
function of the current checkpoint state and the outcome of
`generateThumbnails` (an `Except`: `.error` models a rejected promise).
The stage is skipped when already strictly completed; on success the
stage is recorded with the generated paths; on failure the catch block
logs at level warn, records the stage with an empty `thumbnailPaths`
list, and falls through without rethrowing, so no error ever propagates
out of this stage — the pipeline continues.  The second component is the
level of the log the taken branch emits last. -/
def runThumbnailStage (state : JobState)
    (gen : Except String (List String)) : JobState × String :=
  if isStageCompleted state.stage "thumbnails_generated" then
    (state, "info")
  else
    match gen with
    | .ok thumbnailPaths =>
      ({ state with stage := "thumbnails_generated",
                    thumbnailPaths := thumbnailPaths }, "info")
    | .error _ =>
      ({ state with stage := "thumbnails_generated",
                    thumbnailPaths := [] }, "warn")

/-- C8: thumbnail failure is non-fatal — when the stage runs and
generation fails, the worker logs a warning, records the checkpoint stage
as `thumbnails_generated` with an empty thumbnail list, and returns a
state (never an error), so the pipeline continues instead of failing the
job. -/
theorem c8_thumbnail_failure_non_fatal (state : JobState) (msg : String)
    (hrun : isStageCompleted state.stage "thumbnails_generated" = false) :
    runThumbnailStage state (.error msg)
      = ({ state with stage := "thumbnails_generated",
                      thumbnailPaths := [] }, "warn")
    ∧ (runThumbnailStage state (.error msg)).1.stage ≠ "failed" := by
  constructor
  · simp [runThumbnailStage, hrun]
  · simp [runThumbnailStage, hrun]

/-- Witness for C8: a fresh job state with a failing generator. -/
theorem c8_thumbnail_failure_non_fatal_witness :
    runThumbnailStage (defaultJobState "j1") (.error "ffmpeg exited 1")
      = ({ defaultJobState "j1" with stage := "thumbnails_generated",
                                     thumbnailPaths := [] }, "warn") :=
  (c8_thumbnail_failure_non_fatal (defaultJobState "j1") "ffmpeg exited 1"
    (by decide)).1

/-- C10: `loadState` is total over every failure mode of the checkpoint
file — absent, unreadable, or invalid JSON all yield the fresh default
state (stage `initialized`, empty `completedResolutions`,
`uploadedFiles`, `validResolutions` and `thumbnailPaths`, `videoInfo`
null) rather than raising, for every job id. -/
theorem c10_loadState_total :
    (∀ jobId, loadState jobId .absent = defaultJobState jobId)
    ∧ (∀ jobId, loadState jobId .unreadable = defaultJobState jobId)
    ∧ (∀ jobId, loadState jobId .invalidJson = defaultJobState jobId)
    ∧ (∀ jobId st, loadState jobId (.parsed st) = st)
    ∧ ∀ jobId,
        (defaultJobState jobId).stage = "initialized"
        ∧ (defaultJobState jobId).completedResolutions = []
        ∧ (defaultJobState jobId).uploadedFiles = []
        ∧ (defaultJobState jobId).validResolutions = []
        ∧ (defaultJobState jobId).thumbnailPaths = []
        ∧ (defaultJobState jobId).videoInfo = none :=
  ⟨fun _ => rfl, fun _ => rfl, fun _ => rfl, fun _ _ => rfl,
   fun _ => ⟨rfl, rfl, rfl, rfl, rfl, rfl⟩⟩

/-! ## Cleanup reaper (`cleanupOldJobs`)

The repository carries two variants of the reaper.  The embedding keeps
the per-directory deletion decision; timestamps are milliseconds as
`Int`.  A directory is seen through the reaper's read of its
`job_state.json`: -/

/-- What the reaper finds in a job directory: no checkpoint file at all,
a checkpoint whose read or JSON parse throws (the catch skips the
directory), or a parsed checkpoint with its `stage` and `updatedAt`. -/
inductive ReaperDirRead where
  | absent
  | unreadable
  | parsed (stage : String) (updatedAt : Int)
deriving DecidableEq, Repr

/-- Deletion decision of `cleanupOldJobs` in workers/transcoding.js lines
1286-1327 (the same logic appears at services/queue.js lines 1096-1137):
delete only a directory with a parsable checkpoint whose stage is
`completed` or `failed` and whose age exceeds the single
`maxAgeHours` threshold (default 24); a directory without a checkpoint
file is never touched. -/
def cleanupOldJobsDeletes (maxAgeHours : Int) (dir : ReaperDirRead)
    (now : Int) : Bool :=
  let maxAge := maxAgeHours * 60 * 60 * 1000
  match dir with
  | .parsed stage updatedAt =>
    (stage == "completed" || stage == "failed")
      && decide (maxAge < now - updatedAt)
  | _ => false

/-- Deletion decision of the second `cleanupOldJobs` variant
(services/queue.js lines 2569-2643, default `maxAgeHours = 1`): a
directory without a checkpoint file is orphaned and deleted on sight;
otherwise delete a `completed` directory older than `maxAge` or a
`failed` directory older than 24 hours; a throwing read/parse is caught
and the directory skipped. -/
def cleanupOldJobsDeletesV2 (maxAgeHours : Int) (dir : ReaperDirRead)
    (now : Int) : Bool :=
  let maxAge := maxAgeHours * 60 * 60 * 1000
  match dir with
  | .absent => true
  | .unreadable => false
  | .parsed stage updatedAt =>
    (stage == "completed" && decide (maxAge < now - updatedAt))
      || (stage == "failed"
          && decide ((24 * 60 * 60 * 1000 : Int) < now - updatedAt))

/-- Follows the claim's words (§4.8): delete a checkpointed directory
exactly when its stage is `completed` and it is older than 1 hour or its
stage is `failed` and it is older than 24 hours; delete an orphan
directory (no checkpoint file) on sight. -/
def specReaperDeletes (dir : ReaperDirRead) (now : Int) : Bool :=
  match dir with
  | .absent => true
  | .unreadable => false
  | .parsed stage updatedAt =>
    (stage == "completed" && decide ((60 * 60 * 1000 : Int) < now - updatedAt))
      || (stage == "failed"
          && decide ((24 * 60 * 60 * 1000 : Int) < now - updatedAt))

/-- Counterexample for C9 against the cited reaper
(workers/transcoding.js, default threshold 24h): a completed directory
two hours old must be deleted by the claimed policy but is kept, and an
orphan directory must be deleted on sight but is kept. -/
theorem c9_counterexample_worker_reaper :
    cleanupOldJobsDeletes 24 (.parsed "completed" 0) 7200000 = false
    ∧ specReaperDeletes (.parsed "completed" 0) 7200000 = true
    ∧ cleanupOldJobsDeletes 24 .absent 7200000 = false
    ∧ specReaperDeletes .absent 7200000 = true := by
  refine ⟨?_, ?_, rfl, rfl⟩ <;> decide

/-- C9 amended: the claimed split policy (completed older than 1h,
failed older than 24h, orphans on sight) is implemented by the
`cleanupOldJobs` variant in services/queue.js at its default
`maxAgeHours = 1` — the two decisions coincide on every directory and
instant — while the variant in workers/transcoding.js applies the single
24h-default threshold to completed and failed alike and never deletes
orphans. -/
theorem c9_queue_reaper_matches_split_policy (dir : ReaperDirRead)
    (now : Int) :
    cleanupOldJobsDeletesV2 1 dir now = specReaperDeletes dir now := by
  cases dir <;>
    simp [cleanupOldJobsDeletesV2, specReaperDeletes]
